import Mathlib

/-!
Shallow embedding of the data-normalization and aggregation core of the
Netflix CSV dashboard (`src/app.py`): the column normalizer
`coerce_numeric_columns`, the aggregator `count_by_year`, and the inline
numeric-column auto-detection, correlation-matrix and bounded-sample blocks
of the three visualization tabs.

A pandas DataFrame is modelled column-major: a list of named columns, each
column carrying a storage dtype (numeric or object) and a list of cells.
A cell is either the missing marker `na` (NaN), a number (modelled as `ℚ`),
or a string.
-/

namespace App

/-- A single cell of a DataFrame: missing (NaN), numeric, or string. -/
inductive Cell : Type where
  | na : Cell
  | num : ℚ → Cell
  | str : String → Cell
deriving DecidableEq, Repr

/-- Storage dtype of a pandas column: numeric (int/float) or object. -/
inductive Dtype : Type where
  | numeric : Dtype
  | obj : Dtype
deriving DecidableEq, Repr

/-- A DataFrame column: its storage dtype and its cells. -/
structure Col : Type where
  dtype : Dtype
  cells : List Cell
deriving DecidableEq, Repr

/-- A DataFrame: an ordered association list of named columns. -/
abbrev Frame : Type := List (String × Col)

/-- `df[n]` lookup: the first column named `n`, if any. -/
def getCol (f : Frame) (n : String) : Option Col :=
  (f.find? (fun p => p.1 = n)).map Prod.snd

/-- `n in df.columns`. -/
def hasCol (f : Frame) (n : String) : Bool :=
  (getCol f n).isSome

/-- `df[n] = col` assignment: replace the column named `n` in place if it
exists, otherwise append it at the end (pandas column-assignment semantics). -/
def setCol : Frame → String → Col → Frame
  | [], n, c => [(n, c)]
  | (m, d) :: rest, n, c =>
    if m = n then (m, c) :: rest else (m, d) :: setCol rest n c

/-- Whether a cell is the missing marker. -/
def cellIsNa : Cell → Bool
  | .na => true
  | _ => false

/-- Whether a cell is a string. -/
def cellIsStr : Cell → Bool
  | .str _ => true
  | _ => false

/-- Value of a digit list read as a base-10 integer (leftmost digit most
significant). -/
def digitsToNat (l : List Char) : Nat :=
  l.foldl (fun a c => 10 * a + (c.toNat - 48)) 0

/-- Parse an unsigned decimal literal (digits with optional fractional
part), the numeric grammar accepted by `pd.to_numeric` on plain decimals. -/
def parseUnsigned (l : List Char) : Option ℚ :=
  let d := l.takeWhile Char.isDigit
  let rest := l.dropWhile Char.isDigit
  if d.isEmpty then none
  else
    match rest with
    | [] => some (digitsToNat d : ℚ)
    | '.' :: fr =>
      if !fr.isEmpty && fr.all Char.isDigit then
        some ((digitsToNat d : ℚ) + (digitsToNat fr : ℚ) / (10 ^ fr.length))
      else none
    | _ => none

/-- Parse a signed decimal literal: the element-level conversion performed
by `pd.to_numeric` on a string cell. -/
def parseRat (s : String) : Option ℚ :=
  match s.data with
  | '-' :: rest => (parseUnsigned rest).map (fun q => -q)
  | '+' :: rest => parseUnsigned rest
  | l => parseUnsigned l

/-- `pd.to_numeric(·, errors="coerce")` on one cell: numbers pass through
unchanged, strings are parsed (NaN on failure), NaN stays NaN. -/
def toNumericCell : Cell → Cell
  | .na => .na
  | .num q => .num q
  | .str s =>
    match parseRat s with
    | some q => .num q
    | none => .na

/-- `astype(str)` on one cell: pandas renders NaN as the string `"nan"`,
numbers via their decimal rendering, strings unchanged. -/
def cellText : Cell → String
  | .na => "nan"
  | .num q => toString q
  | .str s => s

/-- First maximal contiguous run of decimal digits of a character list,
the match of the regex `(\d+)` in `Series.str.extract`. -/
def extractDigitRun : List Char → Option (List Char)
  | [] => none
  | c :: rest =>
    if c.isDigit then some (c :: rest.takeWhile Char.isDigit)
    else extractDigitRun rest

/-- `out["duration"].astype(str).str.extract(r"(\d+)")[0]` followed by
`pd.to_numeric(·, errors="coerce")` on one cell: the first digit run of the
cell's text, read as a base-10 integer; NaN when the text has no digit. -/
def durationNumCell (c : Cell) : Cell :=
  match extractDigitRun (cellText c).data with
  | some r => .num (digitsToNat r : ℚ)
  | none => .na

/-- First step of `coerce_numeric_columns` (src/app.py lines 24-25): if a
`release_year` column exists, assign `release_year_num` as its elementwise
`to_numeric`. -/
def coerceYearStep (f : Frame) : Frame :=
  match getCol f "release_year" with
  | some c => setCol f "release_year_num" ⟨.numeric, c.cells.map toNumericCell⟩
  | none => f

/-- Second step of `coerce_numeric_columns` (src/app.py lines 27-29): if a
`duration` column exists, assign `duration_num` as the first-digit-run
extraction of its cells' text. -/
def coerceDurationStep (f : Frame) : Frame :=
  match getCol f "duration" with
  | some c => setCol f "duration_num" ⟨.numeric, c.cells.map durationNumCell⟩
  | none => f

/-- `coerce_numeric_columns` (src/app.py lines 21-30): copy the frame, then
perform the two conditional derived-column assignments in order. -/
def coerce_numeric_columns (f : Frame) : Frame :=
  coerceDurationStep (coerceYearStep f)

/-! ## Aggregator: `count_by_year` -/

/-- Whether the `content_type` argument matches `("Movie", "TV Show")`,
the membership test of src/app.py line 34. -/
def isMovieTv : Option String → Bool
  | some s => s = "Movie" || s = "TV Show"
  | none => false

/-- Elementwise `series == s` for the boolean mask `q["type"] == content_type`:
a string cell compares by string equality; NaN and numeric cells compare
unequal to a string. -/
def cellEqStr (s : String) : Cell → Bool
  | .str t => t = s
  | _ => false

/-- Apply a boolean row mask to one column (`q[mask]` restricted to that
column). -/
def maskCol (mask : List Bool) (c : Col) : Col :=
  ⟨c.dtype, (mask.zip c.cells).filterMap (fun bc => if bc.1 then some bc.2 else none)⟩

/-- Apply a boolean row mask to a whole frame: `q[q["type"] == content_type]`. -/
def maskFrame (f : Frame) (mask : List Bool) : Frame :=
  f.map (fun p => (p.1, maskCol mask p.2))

/-- `Series.dropna()`: remove the missing cells. -/
def dropnaCells (l : List Cell) : List Cell :=
  l.filter (fun c => !cellIsNa c)

/-- Truncation toward zero, numpy's float-to-int `astype(int)` conversion. -/
def truncQ (q : ℚ) : Int :=
  if q < 0 then -((-q).floor) else q.floor

/-- `Series.astype(int)` on a list of cells with the NaNs already dropped:
numbers truncate toward zero; a string or missing cell raises
(`ValueError`), modelled as `Except.error`. -/
def astypeIntCells : List Cell → Except Unit (List Int)
  | [] => Except.ok []
  | c :: rest =>
    match c with
    | .num q => (astypeIntCells rest).map (fun ys => truncQ q :: ys)
    | _ => Except.error ()

/-- `value_counts().sort_index()` on a list of integers: the distinct values
in ascending order, each paired with its number of occurrences. -/
def valueCountsSorted (l : List Int) : List (Int × Nat) :=
  (List.insertionSort (· ≤ ·) l.dedup).map (fun k => (k, l.count k))

/-- The category-filter step of `count_by_year` (src/app.py lines 33-35):
when `content_type` is `"Movie"` or `"TV Show"`, build the mask
`q["type"] == content_type` — a `KeyError` (modelled as `Except.error`)
when no `type` column exists — and keep the masked rows; otherwise the
frame passes through unfiltered. -/
def filterByType (f : Frame) (ct : Option String) : Except Unit Frame :=
  if isMovieTv ct then
    match getCol f "type" with
    | none => Except.error ()
    | some tc => Except.ok (maskFrame f (tc.cells.map (cellEqStr (ct.getD ""))))
  else Except.ok f

/-- The aggregation half of `count_by_year` (src/app.py lines 36-38): an
empty result if no `release_year_num` column exists, else
`dropna().astype(int).value_counts().sort_index()` of that column. -/
def countCore (q : Frame) : Except Unit (List (Int × Nat)) :=
  match getCol q "release_year_num" with
  | none => Except.ok []
  | some yc => (astypeIntCells (dropnaCells yc.cells)).map valueCountsSorted

/-- `count_by_year` (src/app.py lines 32-38): category-filter, then
aggregate counts per year. -/
def count_by_year (f : Frame) (ct : Option String) : Except Unit (List (Int × Nat)) :=
  (filterByType f ct).bind countCore

/-! ## Numeric-column auto-detection (tab 3, src/app.py line 168) -/

/-- Whether a dtype is numeric (`select_dtypes(include="number")` test). -/
def isNumericD : Dtype → Bool
  | .numeric => true
  | .obj => false

/-- Whether every cell of a column is missing (`dropna(axis=1, how="all")`
drops exactly these columns). -/
def colAllNa (c : Col) : Bool :=
  c.cells.all cellIsNa

/-- `df_view.select_dtypes(include="number").dropna(axis=1, how="all")`:
the columns of numeric storage dtype that are not entirely missing. -/
def autoNumericCols (f : Frame) : Frame :=
  f.filter (fun p => isNumericD p.2.dtype && !colAllNa p.2)

/-- Value-level numeric parse of a cell: a number itself, or a string that
parses as a number. -/
def parseCellNum : Cell → Option ℚ
  | .na => none
  | .num q => some q
  | .str s => parseRat s

/-- Whether every present (non-missing) cell of a column parses as a
number — the spec's wording for "numeric column". -/
def presentParses (c : Col) : Bool :=
  c.cells.all (fun x => cellIsNa x || (parseCellNum x).isSome)

/-- Well-formedness of a frame: a column of numeric storage dtype holds no
string cells (true of every pandas numeric-dtype column). -/
def WFframe (f : Frame) : Prop :=
  ∀ p ∈ f, isNumericD p.2.dtype = true → ∀ c ∈ p.2.cells, cellIsStr c = false

/-! ## Correlation matrix (tab 3, src/app.py line 172) -/

/-- Pairwise-complete rows of two columns: the positions where both cells
are numbers, as pandas `corr` masks each pair of columns. -/
def colPairs (a b : List Cell) : List (ℚ × ℚ) :=
  (a.zip b).filterMap (fun pc =>
    match pc with
    | (.num x, .num y) => some (x, y)
    | _ => none)

/-- Mean of a list of rationals (0 on the empty list, by `0 / 0 = 0`). -/
def meanL (l : List ℚ) : ℚ :=
  l.sum / l.length

/-- Sample covariance (ddof = 1) of a list of pairs. -/
def covL (l : List (ℚ × ℚ)) : ℚ :=
  ((l.map (fun p =>
      (p.1 - meanL (l.map Prod.fst)) * (p.2 - meanL (l.map Prod.snd)))).sum)
    / ((l.length : ℚ) - 1)

/-- Sample variance (ddof = 1) of a list of rationals. -/
def varL (l : List ℚ) : ℚ :=
  ((l.map (fun x => (x - meanL l) ^ 2)).sum) / ((l.length : ℚ) - 1)

/-- Pearson correlation of two columns under the pairwise-complete-case
policy of `DataFrame.corr`: covariance over the product of standard
deviations, valued in `ℝ` (the float result is modelled by the exact real). -/
noncomputable def corrEntry (a b : List Cell) : ℝ :=
  (covL (colPairs a b) : ℝ) /
    (Real.sqrt (varL ((colPairs a b).map Prod.fst)) *
      Real.sqrt (varL ((colPairs a b).map Prod.snd)))

/-- Cells of the column named `n`, `[]` when absent. -/
def colCellsD (f : Frame) (n : String) : List Cell :=
  ((getCol f n).map Col.cells).getD []

/-- Entry `(a, b)` of the tab-3 correlation matrix
`df_view.select_dtypes(include="number").dropna(axis=1, how="all").corr()`. -/
noncomputable def corrMatrix (f : Frame) (a b : String) : ℝ :=
  corrEntry (colCellsD (autoNumericCols f) a) (colCellsD (autoNumericCols f) b)

/-! ## Bounded sample (tab 2, src/app.py lines 156-158) -/

/-- Modelled from the spec: the seeded uniform random sampler of
`DataFrame.sample(n, random_state=seed)` lives in the pandas/numpy
libraries, not in this repository; per the spec it draws a uniform random
sample of exactly `n` rows, deterministically from the seed. The
pseudo-random stream is modelled by a linear congruential generator. -/
def lcg (s : Nat) : Nat :=
  (1103515245 * s + 12345) % 4294967296

/-- Modelled from the spec: draw `k` rows without replacement, each pick
driven by the deterministic pseudo-random state. -/
def sampleGo {α : Type} : Nat → List α → Nat → List α
  | 0, _, _ => []
  | k + 1, l, s =>
    match l.get? (s % l.length) with
    | some x => x :: sampleGo k (l.eraseIdx (s % l.length)) (lcg s)
    | none => []

/-- Rows of the selected columns of a frame (`df_view[sel]`, row-major). -/
def selectRows (f : Frame) (cols : List String) : List (List Cell) :=
  (cols.map (fun n => colCellsD f n)).transpose

/-- The tab-2 pairplot data pipeline (src/app.py lines 156-158):
`df_view[sel].dropna()`, then `sample(cap, random_state=seed)` when more
than `cap` rows remain. -/
def boundedSample (f : Frame) (cols : List String) (cap seed : Nat) :
    List (List Cell) :=
  let d := (selectRows f cols).filter (fun r => r.all (fun c => !cellIsNa c))
  if cap < d.length then sampleGo cap d (lcg seed) else d

/-! ## Lemmas on digit-run extraction -/

theorem takeWhile_append_of_all {p : Char → Bool} (l1 l2 : List Char)
    (h : ∀ c ∈ l1, p c = true) :
    (l1 ++ l2).takeWhile p = l1 ++ l2.takeWhile p := by
  induction l1 with
  | nil => simp
  | cons c cs ih =>
    have hc : p c = true := h c (List.mem_cons_self _ _)
    simp only [List.cons_append, List.takeWhile_cons, hc, if_true]
    rw [ih (fun x hx => h x (List.mem_cons_of_mem _ hx))]

theorem takeWhile_eq_nil_of_head {p : Char → Bool} (t : List Char)
    (h : ∀ c ∈ t.head?, p c = false) :
    t.takeWhile p = [] := by
  cases t with
  | nil => rfl
  | cons c cs =>
    have hc : p c = false := h c (by simp)
    simp [List.takeWhile_cons, hc]

theorem extractDigitRun_decomp (p r t : List Char)
    (hp : ∀ x ∈ p, x.isDigit = false) (hr0 : r ≠ [])
    (hr : ∀ x ∈ r, x.isDigit = true)
    (ht : ∀ x ∈ t.head?, x.isDigit = false) :
    extractDigitRun (p ++ r ++ t) = some r := by
  induction p with
  | nil =>
    cases r with
    | nil => exact absurd rfl hr0
    | cons c cs =>
      have hc : c.isDigit = true := hr c (List.mem_cons_self _ _)
      have hcs : ∀ x ∈ cs, x.isDigit = true :=
        fun x hx => hr x (List.mem_cons_of_mem _ hx)
      simp only [List.nil_append, List.cons_append, extractDigitRun, hc, if_true,
        List.append_eq]
      rw [takeWhile_append_of_all cs t hcs, takeWhile_eq_nil_of_head t ht]
      simp
  | cons c cs ih =>
    have hc : c.isDigit = false := hp c (List.mem_cons_self _ _)
    simp only [List.cons_append, extractDigitRun, hc]
    simp only [Bool.false_eq_true, if_false]
    exact ih (fun x hx => hp x (List.mem_cons_of_mem _ hx))

theorem extractDigitRun_none (l : List Char)
    (h : ∀ x ∈ l, x.isDigit = false) :
    extractDigitRun l = none := by
  induction l with
  | nil => rfl
  | cons c cs ih =>
    have hc : c.isDigit = false := h c (List.mem_cons_self _ _)
    simp only [extractDigitRun, hc, Bool.false_eq_true, if_false]
    exact ih (fun x hx => h x (List.mem_cons_of_mem _ hx))

/-- C1: for every input value of the duration source column whose text
decomposes as a digit-free prefix, a nonempty maximal digit run, and a
remainder not starting with a digit, the derived duration value is that
first digit run read as a base-10 integer; for every value whose text has
no digit at all, the derived value is the missing marker. -/
theorem claim1_duration_first_digit_run (c : Cell) :
    (∀ p r t, (cellText c).data = p ++ r ++ t →
      (∀ x ∈ p, x.isDigit = false) → r ≠ [] →
      (∀ x ∈ r, x.isDigit = true) →
      (∀ x ∈ t.head?, x.isDigit = false) →
      durationNumCell c = .num (digitsToNat r : ℚ))
    ∧ ((∀ x ∈ (cellText c).data, x.isDigit = false) →
      durationNumCell c = .na) := by
  constructor
  · intro p r t hdec hp hr0 hr ht
    unfold durationNumCell
    rw [hdec, extractDigitRun_decomp p r t hp hr0 hr ht]
  · intro h
    unfold durationNumCell
    rw [extractDigitRun_none _ h]

/-- Witness for C1 at concrete inputs: `"Season 3: 10 Episodes"` yields 3,
`"90 min"` yields 90, and the digit-free `"abc"` yields the missing
marker. -/
theorem claim1_duration_first_digit_run_witness :
    durationNumCell (.str "Season 3: 10 Episodes") = .num 3
    ∧ durationNumCell (.str "90 min") = .num 90
    ∧ durationNumCell (.str "abc") = .na := by
  refine ⟨?_, ?_, ?_⟩
  · have h := (claim1_duration_first_digit_run (.str "Season 3: 10 Episodes")).1
      "Season ".data ['3'] ": 10 Episodes".data
      (by decide) (by decide) (by decide) (by decide) (by decide)
    simpa [digitsToNat] using h
  · have h := (claim1_duration_first_digit_run (.str "90 min")).1
      [] ['9', '0'] " min".data
      (by decide) (by decide) (by decide) (by decide) (by decide)
    simpa [digitsToNat] using h
  · exact (claim1_duration_first_digit_run (.str "abc")).2 (by decide)

/-! ## Lemmas on column lookup and assignment -/

theorem getCol_cons (m : String) (d : Col) (l : Frame) (n : String) :
    getCol ((m, d) :: l) n = if m = n then some d else getCol l n := by
  by_cases h : m = n <;> simp [getCol, List.find?_cons, h]

theorem getCol_setCol_self :
    ∀ (f : Frame) (n : String) (c : Col), getCol (setCol f n c) n = some c
  | [], n, c => by simp [getCol, setCol, List.find?_cons]
  | (m, d) :: rest, n, c => by
    by_cases h : m = n
    · subst h
      simp [setCol, getCol, List.find?_cons]
    · simp only [setCol, h, if_false]
      rw [getCol_cons, if_neg h]
      exact getCol_setCol_self rest n c

theorem getCol_setCol_ne :
    ∀ (f : Frame) (n m : String) (c : Col), m ≠ n →
      getCol (setCol f n c) m = getCol f m
  | [], n, m, c, h => by
    have h' : ¬(n = m) := fun hh => h hh.symm
    simp [getCol, setCol, List.find?_cons, h']
  | (k, d) :: rest, n, m, c, h => by
    by_cases hk : k = n
    · subst hk
      have hk' : ¬(k = m) := fun hh => h hh.symm
      simp only [setCol]
      rw [if_pos trivial, getCol_cons, getCol_cons, if_neg hk', if_neg hk']
    · simp only [setCol, if_neg hk]
      rw [getCol_cons, getCol_cons]
      by_cases hkm : k = m
      · rw [if_pos hkm, if_pos hkm]
      · rw [if_neg hkm, if_neg hkm]
        exact getCol_setCol_ne rest n m c h

theorem coerceYearStep_none (f : Frame) (h : getCol f "release_year" = none) :
    coerceYearStep f = f := by
  unfold coerceYearStep
  rw [h]

theorem coerceYearStep_some (f : Frame) (c : Col)
    (h : getCol f "release_year" = some c) :
    coerceYearStep f
      = setCol f "release_year_num" ⟨.numeric, c.cells.map toNumericCell⟩ := by
  unfold coerceYearStep
  rw [h]

theorem coerceDurationStep_none (f : Frame) (h : getCol f "duration" = none) :
    coerceDurationStep f = f := by
  unfold coerceDurationStep
  rw [h]

theorem coerceDurationStep_some (f : Frame) (c : Col)
    (h : getCol f "duration" = some c) :
    coerceDurationStep f
      = setCol f "duration_num" ⟨.numeric, c.cells.map durationNumCell⟩ := by
  unfold coerceDurationStep
  rw [h]

theorem getCol_coerceYearStep_ne (f : Frame) (n : String)
    (h : n ≠ "release_year_num") :
    getCol (coerceYearStep f) n = getCol f n := by
  unfold coerceYearStep
  cases hy : getCol f "release_year" with
  | none => rfl
  | some c => exact getCol_setCol_ne f "release_year_num" n _ h

theorem getCol_coerceDurationStep_ne (f : Frame) (n : String)
    (h : n ≠ "duration_num") :
    getCol (coerceDurationStep f) n = getCol f n := by
  unfold coerceDurationStep
  cases hd : getCol f "duration" with
  | none => rfl
  | some c => exact getCol_setCol_ne f "duration_num" n _ h

/-! ## Claims C7, C8, C9: the column normalizer -/

/-- C7 counterexample: an input frame that already contains a column named
`release_year_num` alongside a `release_year` source column has that
original column overwritten by `coerce_numeric_columns`, so not every
original column survives unchanged. -/
theorem claim7_normalizer_counterexample :
    hasCol [("release_year", ⟨Dtype.obj, [Cell.str "2000"]⟩),
            ("release_year_num", ⟨Dtype.numeric, [Cell.num 7]⟩)]
        "release_year_num" = true
    ∧ getCol (coerce_numeric_columns
        [("release_year", ⟨Dtype.obj, [Cell.str "2000"]⟩),
         ("release_year_num", ⟨Dtype.numeric, [Cell.num 7]⟩)])
        "release_year_num"
      ≠ getCol [("release_year", ⟨Dtype.obj, [Cell.str "2000"]⟩),
                ("release_year_num", ⟨Dtype.numeric, [Cell.num 7]⟩)]
          "release_year_num" := by
  decide

/-- C7 (amended): the normalizer is pure — it builds a new frame — and
every original column whose name is neither `release_year_num` nor
`duration_num` is present and unchanged in the output; an original column
bearing one of those two derived names may be overwritten. -/
theorem claim7_normalizer_nondestructive (f : Frame) (n : String)
    (h1 : n ≠ "release_year_num") (h2 : n ≠ "duration_num") :
    getCol (coerce_numeric_columns f) n = getCol f n := by
  unfold coerce_numeric_columns
  rw [getCol_coerceDurationStep_ne _ n h2, getCol_coerceYearStep_ne f n h1]

/-- Witness for the amended C7: at a concrete frame the source column
`release_year` itself is untouched by the normalizer. -/
theorem claim7_normalizer_nondestructive_witness :
    getCol (coerce_numeric_columns
        [("release_year", ⟨Dtype.obj, [Cell.str "2000"]⟩),
         ("release_year_num", ⟨Dtype.numeric, [Cell.num 7]⟩)])
        "release_year"
      = getCol [("release_year", ⟨Dtype.obj, [Cell.str "2000"]⟩),
                ("release_year_num", ⟨Dtype.numeric, [Cell.num 7]⟩)]
          "release_year" :=
  claim7_normalizer_nondestructive _ "release_year" (by decide) (by decide)

/-- C8: when a `release_year` column exists, the derived `release_year_num`
column is exactly its elementwise numeric parse (missing on parse failure),
numbers pass through unchanged — no range validation — and in particular
the out-of-range string `"99999"` parses to the number 99999 and is kept
as-is. -/
theorem claim8_year_parse (f : Frame) (c : Col)
    (h : getCol f "release_year" = some c) :
    getCol (coerce_numeric_columns f) "release_year_num"
      = some ⟨.numeric, c.cells.map toNumericCell⟩
    ∧ (∀ q : ℚ, toNumericCell (.num q) = .num q)
    ∧ toNumericCell (.str "99999") = .num 99999 := by
  refine ⟨?_, fun q => rfl, by decide⟩
  unfold coerce_numeric_columns
  rw [getCol_coerceDurationStep_ne _ "release_year_num" (by decide),
    coerceYearStep_some f c h]
  exact getCol_setCol_self f "release_year_num" _

/-- Witness for C8 at a concrete frame: the string year `"99999"` is parsed
and kept without range validation. -/
theorem claim8_year_parse_witness :
    getCol (coerce_numeric_columns
        [("release_year", ⟨Dtype.obj, [Cell.str "99999"]⟩)])
        "release_year_num"
      = some ⟨Dtype.numeric, [Cell.num 99999]⟩ := by
  have h := (claim8_year_parse [("release_year", ⟨Dtype.obj, [Cell.str "99999"]⟩)]
    ⟨Dtype.obj, [Cell.str "99999"]⟩ (by decide)).1
  exact h.trans (by decide)

/-- C9: a missing source column is not an error — the corresponding derived
column is simply not produced (the frame's column under that derived name
is left exactly as it was), while the other derived column is still
produced when its own source column exists. -/
theorem claim9_missing_source (f : Frame) :
    (getCol f "release_year" = none →
      getCol (coerce_numeric_columns f) "release_year_num"
        = getCol f "release_year_num")
    ∧ (getCol f "duration" = none →
      getCol (coerce_numeric_columns f) "duration_num"
        = getCol f "duration_num")
    ∧ (∀ c, getCol f "release_year" = none → getCol f "duration" = some c →
      getCol (coerce_numeric_columns f) "duration_num"
        = some ⟨.numeric, c.cells.map durationNumCell⟩)
    ∧ (∀ c, getCol f "duration" = none → getCol f "release_year" = some c →
      getCol (coerce_numeric_columns f) "release_year_num"
        = some ⟨.numeric, c.cells.map toNumericCell⟩) := by
  refine ⟨?_, ?_, ?_, ?_⟩
  · intro hry
    unfold coerce_numeric_columns
    rw [coerceYearStep_none f hry,
      getCol_coerceDurationStep_ne f "release_year_num" (by decide)]
  · intro hd
    unfold coerce_numeric_columns
    have hd1 : getCol (coerceYearStep f) "duration" = none :=
      (getCol_coerceYearStep_ne f "duration" (by decide)).trans hd
    rw [coerceDurationStep_none _ hd1,
      getCol_coerceYearStep_ne f "duration_num" (by decide)]
  · intro c hry hd
    unfold coerce_numeric_columns
    rw [coerceYearStep_none f hry, coerceDurationStep_some f c hd]
    exact getCol_setCol_self f "duration_num" _
  · intro c hd hry
    unfold coerce_numeric_columns
    have hd1 : getCol (coerceYearStep f) "duration" = none :=
      (getCol_coerceYearStep_ne f "duration" (by decide)).trans hd
    rw [coerceDurationStep_none _ hd1, coerceYearStep_some f c hry]
    exact getCol_setCol_self f "release_year_num" _

/-- Witness for C9 at a concrete frame with a `duration` column but no
`release_year` column: no `release_year_num` column is produced, while
`duration_num` still is. -/
theorem claim9_missing_source_witness :
    getCol (coerce_numeric_columns [("duration", ⟨Dtype.obj, [Cell.str "90 min"]⟩)])
        "release_year_num" = none
    ∧ getCol (coerce_numeric_columns [("duration", ⟨Dtype.obj, [Cell.str "90 min"]⟩)])
        "duration_num" = some ⟨Dtype.numeric, [Cell.num 90]⟩ := by
  have h := claim9_missing_source [("duration", ⟨Dtype.obj, [Cell.str "90 min"]⟩)]
  refine ⟨(h.1 (by decide)).trans (by decide), ?_⟩
  exact (h.2.2.1 ⟨Dtype.obj, [Cell.str "90 min"]⟩ (by decide) (by decide)).trans (by decide)

/-! ## Lemmas on `count_by_year` -/

theorem astypeIntCells_length :
    ∀ (l : List Cell) (ys : List Int), astypeIntCells l = .ok ys →
      ys.length = l.length
  | [], ys, h => by
    simp only [astypeIntCells] at h
    cases h
    rfl
  | c :: rest, ys, h => by
    cases c with
    | num q =>
      simp only [astypeIntCells] at h
      cases hr : astypeIntCells rest with
      | error e => rw [hr] at h; cases h
      | ok ys' =>
        rw [hr] at h
        cases h
        simp [astypeIntCells_length rest ys' hr]
    | na => simp only [astypeIntCells] at h; cases h
    | str s => simp only [astypeIntCells] at h; cases h

theorem valueCountsSorted_keys (l : List Int) :
    (valueCountsSorted l).map Prod.fst = List.insertionSort (· ≤ ·) l.dedup := by
  unfold valueCountsSorted
  rw [List.map_map]
  exact List.map_id _

theorem valueCountsSorted_keys_sorted (l : List Int) :
    ((valueCountsSorted l).map Prod.fst).Sorted (· < ·) := by
  rw [valueCountsSorted_keys]
  have hs : (List.insertionSort (· ≤ ·) l.dedup).Sorted (· ≤ ·) :=
    List.sorted_insertionSort (· ≤ ·) l.dedup
  have hn : (List.insertionSort (· ≤ ·) l.dedup).Nodup :=
    (List.perm_insertionSort (· ≤ ·) l.dedup).nodup_iff.mpr l.nodup_dedup
  exact hs.lt_of_le hn

theorem valueCountsSorted_keys_nodup (l : List Int) :
    ((valueCountsSorted l).map Prod.fst).Nodup := by
  rw [valueCountsSorted_keys]
  exact (List.perm_insertionSort (· ≤ ·) l.dedup).nodup_iff.mpr l.nodup_dedup

theorem valueCountsSorted_sum (l : List Int) :
    ((valueCountsSorted l).map Prod.snd).sum = l.length := by
  have hm : (valueCountsSorted l).map Prod.snd
      = (List.insertionSort (· ≤ ·) l.dedup).map (fun k => l.count k) := by
    simp [valueCountsSorted, List.map_map]
  rw [hm]
  have hp : List.Perm
      ((List.insertionSort (· ≤ ·) l.dedup).map (fun k => l.count k))
      (l.dedup.map (fun k => l.count k)) :=
    (List.perm_insertionSort (· ≤ ·) l.dedup).map _
  rw [hp.sum_eq]
  exact List.sum_map_count_dedup_eq_length l

theorem getCol_maskFrame (f : Frame) (mask : List Bool) (n : String) :
    getCol (maskFrame f mask) n = (getCol f n).map (maskCol mask) := by
  induction f with
  | nil => rfl
  | cons p rest ih =>
    obtain ⟨m, c⟩ := p
    by_cases h : m = n
    · subst h
      simp [maskFrame, getCol_cons]
    · simp only [maskFrame, List.map_cons] at ih ⊢
      rw [getCol_cons, if_neg h, getCol_cons, if_neg h]
      exact ih

theorem maskCol_all_false (mask : List Bool) (c : Col)
    (h : ∀ b ∈ mask, b = false) :
    (maskCol mask c).cells = [] := by
  induction mask generalizing c with
  | nil => simp [maskCol]
  | cons b bs ih =>
    cases hc : c.cells with
    | nil => simp [maskCol, hc]
    | cons x xs =>
      have hb : b = false := h b (List.mem_cons_self _ _)
      subst hb
      have := ih ⟨c.dtype, xs⟩ (fun b hb => h b (List.mem_cons_of_mem _ hb))
      simpa [maskCol, hc] using this

theorem filterByType_not_mv (f : Frame) (ct : Option String)
    (h : isMovieTv ct = false) : filterByType f ct = .ok f := by
  unfold filterByType
  rw [h]
  rfl

theorem filterByType_mv_none (f : Frame) (ct : Option String)
    (h1 : isMovieTv ct = true) (h2 : getCol f "type" = none) :
    filterByType f ct = .error () := by
  unfold filterByType
  rw [h1, h2]
  rfl

theorem filterByType_mv_some (f : Frame) (ct : Option String) (tc : Col)
    (h1 : isMovieTv ct = true) (h2 : getCol f "type" = some tc) :
    filterByType f ct
      = .ok (maskFrame f (tc.cells.map (cellEqStr (ct.getD "")))) := by
  unfold filterByType
  rw [h1, h2]
  rfl

theorem countCore_none (q : Frame) (h : getCol q "release_year_num" = none) :
    countCore q = .ok [] := by
  unfold countCore
  rw [h]

theorem countCore_some (q : Frame) (yc : Col)
    (h : getCol q "release_year_num" = some yc) :
    countCore q = (astypeIntCells (dropnaCells yc.cells)).map valueCountsSorted := by
  unfold countCore
  rw [h]

/-! ## Claims C2, C3, C10: `count_by_year` -/

/-- C2: whenever `count_by_year` succeeds, its output keys are strictly
ascending with no duplicate years, and the counts sum to the number of rows
of the category-filtered frame whose derived year is non-missing (zero rows
when the derived year column is absent). -/
theorem claim2_count_by_year_shape (f : Frame) (ct : Option String)
    (l : List (Int × Nat)) (h : count_by_year f ct = .ok l) :
    (l.map Prod.fst).Sorted (· < ·)
    ∧ (l.map Prod.fst).Nodup
    ∧ (∀ q, filterByType f ct = .ok q →
        (∀ yc, getCol q "release_year_num" = some yc →
          (l.map Prod.snd).sum = (dropnaCells yc.cells).length)
        ∧ (getCol q "release_year_num" = none → l = [])) := by
  unfold count_by_year at h
  cases hq : filterByType f ct with
  | error e => rw [hq] at h; cases h
  | ok q =>
    rw [hq] at h
    simp only [Except.bind] at h
    cases hyc : getCol q "release_year_num" with
    | none =>
      rw [countCore_none q hyc] at h
      cases h
      refine ⟨List.sorted_nil, List.nodup_nil, ?_⟩
      intro q' hq'
      cases hq'
      constructor
      · intro yc hyc'
        rw [hyc] at hyc'
        cases hyc'
      · intro _
        rfl
    | some yc =>
      rw [countCore_some q yc hyc] at h
      cases hys : astypeIntCells (dropnaCells yc.cells) with
      | error e => rw [hys] at h; cases h
      | ok ys =>
        rw [hys] at h
        simp only [Except.map] at h
        cases h
        refine ⟨valueCountsSorted_keys_sorted ys, valueCountsSorted_keys_nodup ys, ?_⟩
        intro q' hq'
        cases hq'
        constructor
        · intro yc' hyc'
          rw [hyc] at hyc'
          cases hyc'
          rw [valueCountsSorted_sum ys]
          exact astypeIntCells_length _ ys hys
        · intro hnone
          rw [hyc] at hnone
          cases hnone

/-- Witness for C2 at a concrete frame with years
`[2018, 2018, 2020, missing]` and no filter. -/
theorem claim2_count_by_year_shape_witness :
    (([((2018 : Int), (2 : Nat)), (2020, 1)]).map Prod.fst).Sorted (· < ·)
    ∧ (([((2018 : Int), (2 : Nat)), (2020, 1)]).map Prod.snd).sum
      = (dropnaCells [Cell.num 2018, Cell.num 2018, Cell.num 2020, Cell.na]).length := by
  have h := claim2_count_by_year_shape
    [("release_year_num",
      ⟨Dtype.numeric, [Cell.num 2018, Cell.num 2018, Cell.num 2020, Cell.na]⟩)]
    none [(2018, 2), (2020, 1)] rfl
  exact ⟨h.1, (h.2.2 _ rfl).1 _ rfl⟩

/-- C3 counterexample: on a frame with no `type` column (and no derived
year column either) and the category filter `"Movie"`, `count_by_year`
raises a `KeyError` instead of returning an empty result. -/
theorem claim3_counterexample :
    count_by_year ([] : Frame) (some "Movie") = .error () := rfl

/-- C3 (amended): provided no Movie/TV-Show category filter is requested or
the frame has a `type` column, `count_by_year` returns an empty result —
not an error — whenever the derived year column is absent, and likewise
whenever no row survives the category filter; but when a Movie/TV-Show
filter is requested on a frame without a `type` column, it raises
(`KeyError`). -/
theorem claim3_empty_result (f : Frame) (ct : Option String) :
    ((isMovieTv ct = false ∨ hasCol f "type" = true) →
      getCol f "release_year_num" = none → count_by_year f ct = .ok [])
    ∧ (∀ s tc, ct = some s → isMovieTv ct = true → getCol f "type" = some tc →
        (∀ c ∈ tc.cells, cellEqStr s c = false) → count_by_year f ct = .ok [])
    ∧ (isMovieTv ct = true → hasCol f "type" = false →
        count_by_year f ct = .error ()) := by
  refine ⟨?_, ?_, ?_⟩
  · intro hpre hyear
    cases hmv : isMovieTv ct with
    | false =>
      unfold count_by_year
      rw [filterByType_not_mv f ct hmv]
      simp only [Except.bind]
      exact countCore_none f hyear
    | true =>
      have htype : hasCol f "type" = true := by
        cases hpre with
        | inl h => rw [h] at hmv; cases hmv
        | inr h => exact h
      obtain ⟨tc, htc⟩ : ∃ tc, getCol f "type" = some tc := by
        unfold hasCol at htype
        cases hg : getCol f "type" with
        | none => rw [hg] at htype; cases htype
        | some tc => exact ⟨tc, rfl⟩
      unfold count_by_year
      rw [filterByType_mv_some f ct tc hmv htc]
      simp only [Except.bind]
      refine countCore_none _ ?_
      rw [getCol_maskFrame, hyear]
      rfl
  · intro s tc hcts hmv htc hall
    unfold count_by_year
    rw [filterByType_mv_some f ct tc hmv htc]
    simp only [Except.bind]
    have hmask : ∀ b ∈ tc.cells.map (cellEqStr (ct.getD "")), b = false := by
      intro b hb
      obtain ⟨c, hc, rfl⟩ := List.mem_map.mp hb
      rw [hcts]
      exact hall c hc
    cases hyc : getCol f "release_year_num" with
    | none =>
      refine countCore_none _ ?_
      rw [getCol_maskFrame, hyc]
      rfl
    | some yc =>
      have hycm : getCol (maskFrame f (tc.cells.map (cellEqStr (ct.getD ""))))
          "release_year_num"
          = some (maskCol (tc.cells.map (cellEqStr (ct.getD ""))) yc) := by
        rw [getCol_maskFrame, hyc]
        rfl
      rw [countCore_some _ _ hycm, maskCol_all_false _ yc hmask]
      rfl
  · intro hmv htype
    unfold count_by_year
    unfold hasCol at htype
    cases hg : getCol f "type" with
    | none => rw [filterByType_mv_none f ct hmv hg]; rfl
    | some tc => rw [hg] at htype; cases htype

/-- Witness for the amended C3: a frame with no derived year column yields
an empty result under no filter; a frame whose only row is a Movie yields
an empty result under the `"TV Show"` filter; a frame with no `type`
column errors under the `"Movie"` filter. -/
theorem claim3_empty_result_witness :
    count_by_year [("x", ⟨Dtype.obj, [Cell.str "a"]⟩)] none = .ok []
    ∧ count_by_year [("type", ⟨Dtype.obj, [Cell.str "Movie"]⟩)]
        (some "TV Show") = .ok []
    ∧ count_by_year [("x", ⟨Dtype.obj, [Cell.str "a"]⟩)] (some "Movie")
        = .error () := by
  refine ⟨?_, ?_, ?_⟩
  · exact (claim3_empty_result [("x", ⟨Dtype.obj, [Cell.str "a"]⟩)] none).1
      (Or.inl rfl) rfl
  · exact (claim3_empty_result [("type", ⟨Dtype.obj, [Cell.str "Movie"]⟩)]
      (some "TV Show")).2.1 "TV Show" ⟨Dtype.obj, [Cell.str "Movie"]⟩
      rfl rfl rfl (by decide)
  · exact (claim3_empty_result [("x", ⟨Dtype.obj, [Cell.str "a"]⟩)]
      (some "Movie")).2.2 rfl rfl

/-- C10: for any category-filter value other than exactly `"Movie"` or
`"TV Show"` — `none` or any other string — `count_by_year` performs no
filtering at all (it behaves exactly like the unfiltered call), and on
success its counts sum over every row of the frame with a non-missing
derived year. -/
theorem claim10_non_category_filter (f : Frame) (ct : Option String)
    (h : isMovieTv ct = false) :
    count_by_year f ct = count_by_year f none
    ∧ (∀ yc l, getCol f "release_year_num" = some yc →
        count_by_year f ct = .ok l →
        (l.map Prod.snd).sum = (dropnaCells yc.cells).length) := by
  constructor
  · unfold count_by_year
    rw [filterByType_not_mv f ct h, filterByType_not_mv f none rfl]
  · intro yc l hyc hok
    unfold count_by_year at hok
    rw [filterByType_not_mv f ct h] at hok
    simp only [Except.bind] at hok
    rw [countCore_some f yc hyc] at hok
    cases hys : astypeIntCells (dropnaCells yc.cells) with
    | error e => rw [hys] at hok; cases hok
    | ok ys =>
      rw [hys] at hok
      simp only [Except.map] at hok
      cases hok
      rw [valueCountsSorted_sum ys]
      exact astypeIntCells_length _ ys hys

/-- Witness for C10: the unrecognized filter value `"Todos"` leaves the
concrete frame unfiltered and counts its three non-missing years. -/
theorem claim10_non_category_filter_witness :
    count_by_year [("release_year_num",
        ⟨Dtype.numeric, [Cell.num 2018, Cell.num 2018, Cell.num 2020, Cell.na]⟩)]
        (some "Todos")
      = count_by_year [("release_year_num",
        ⟨Dtype.numeric, [Cell.num 2018, Cell.num 2018, Cell.num 2020, Cell.na]⟩)]
        none
    ∧ (([((2018 : Int), (2 : Nat)), (2020, 1)]).map Prod.snd).sum
      = (dropnaCells [Cell.num 2018, Cell.num 2018, Cell.num 2020, Cell.na]).length := by
  have h := claim10_non_category_filter
    [("release_year_num",
      ⟨Dtype.numeric, [Cell.num 2018, Cell.num 2018, Cell.num 2020, Cell.na]⟩)]
    (some "Todos") rfl
  exact ⟨h.1, h.2 _ [(2018, 2), (2020, 1)] rfl rfl⟩

/-! ## Claim C4: numeric-column auto-detection -/

/-- C4 counterexample: a numeric-dtype column all of whose values are
missing vacuously has every present value parse as a number, yet
`select_dtypes(include="number").dropna(axis=1, how="all")` does not keep
it, so "auto-detected iff every present value parses as a number" fails. -/
theorem claim4_counterexample :
    presentParses ⟨Dtype.numeric, [Cell.na]⟩ = true
    ∧ autoNumericCols [("a", ⟨Dtype.numeric, [Cell.na]⟩)] = [] := by
  constructor
  · rfl
  · rfl

/-- C4 (amended): on a well-formed frame (numeric-dtype columns hold no
strings), a column is auto-detected for the correlation matrix iff its
storage dtype is numeric and not all of its values are missing; every
present value of an auto-detected column does parse as a number, but the
converse fails (an all-missing numeric column, or a text column of numeric
strings, is not selected). -/
theorem claim4_auto_numeric (f : Frame) (p : String × Col) (hwf : WFframe f) :
    (p ∈ autoNumericCols f
      ↔ p ∈ f ∧ isNumericD p.2.dtype = true ∧ colAllNa p.2 = false)
    ∧ (p ∈ autoNumericCols f → presentParses p.2 = true) := by
  have hmem : p ∈ autoNumericCols f
      ↔ p ∈ f ∧ (isNumericD p.2.dtype && !colAllNa p.2) = true :=
    List.mem_filter
  constructor
  · rw [hmem]
    constructor
    · rintro ⟨hp, hb⟩
      rcases Bool.and_eq_true_iff.mp hb with ⟨h1, h2⟩
      exact ⟨hp, h1, by
        cases hna : colAllNa p.2 with
        | false => rfl
        | true => rw [hna] at h2; cases h2⟩
    · rintro ⟨hp, h1, h2⟩
      exact ⟨hp, by rw [h1, h2]; rfl⟩
  · intro hmem2
    rcases hmem.mp hmem2 with ⟨hp, hb⟩
    rcases Bool.and_eq_true_iff.mp hb with ⟨h1, _⟩
    have hnostr := hwf p hp h1
    unfold presentParses
    rw [List.all_eq_true]
    intro c hc
    cases c with
    | na => rfl
    | num q => rfl
    | str s => simpa [cellIsStr] using hnostr (Cell.str s) hc

/-- Witness for the amended C4 at a concrete frame: a numeric column with a
present value is auto-detected, and its present values parse. -/
theorem claim4_auto_numeric_witness :
    ("a", (⟨Dtype.numeric, [Cell.num 1, Cell.na]⟩ : Col))
      ∈ autoNumericCols [("a", ⟨Dtype.numeric, [Cell.num 1, Cell.na]⟩)]
    ∧ presentParses ⟨Dtype.numeric, [Cell.num 1, Cell.na]⟩ = true := by
  have h := claim4_auto_numeric [("a", ⟨Dtype.numeric, [Cell.num 1, Cell.na]⟩)]
    ("a", ⟨Dtype.numeric, [Cell.num 1, Cell.na]⟩)
    (by
      intro p hp hnum c hc
      rcases List.mem_singleton.mp hp with rfl
      simp only [List.mem_cons, List.mem_singleton] at hc
      rcases hc with rfl | rfl | hfalse
      · rfl
      · rfl
      · cases hfalse)
  have hmem : ("a", (⟨Dtype.numeric, [Cell.num 1, Cell.na]⟩ : Col))
      ∈ autoNumericCols [("a", ⟨Dtype.numeric, [Cell.num 1, Cell.na]⟩)] :=
    h.1.mpr ⟨List.mem_singleton.mpr rfl, rfl, rfl⟩
  exact ⟨hmem, h.2 hmem⟩

/-! ## Claim C5: correlation-matrix symmetry -/

theorem colPairs_swap :
    ∀ (a b : List Cell), colPairs b a = (colPairs a b).map Prod.swap
  | [], b => by
    simp [colPairs]
  | x :: xs, [] => by
    simp [colPairs]
  | x :: xs, y :: ys => by
    have ih := colPairs_swap xs ys
    cases x <;> cases y <;>
      simp_all [colPairs, List.zip_cons_cons, List.filterMap_cons]

theorem covL_map_swap (l : List (ℚ × ℚ)) :
    covL (l.map Prod.swap) = covL l := by
  unfold covL
  simp only [List.map_map, List.length_map]
  rw [show (Prod.fst ∘ Prod.swap : ℚ × ℚ → ℚ) = Prod.snd from rfl,
    show (Prod.snd ∘ Prod.swap : ℚ × ℚ → ℚ) = Prod.fst from rfl]
  congr 1
  rw [show ((fun p : ℚ × ℚ =>
      (p.1 - meanL (l.map Prod.snd)) * (p.2 - meanL (l.map Prod.fst)))
        ∘ Prod.swap)
    = fun p : ℚ × ℚ =>
      (p.2 - meanL (l.map Prod.snd)) * (p.1 - meanL (l.map Prod.fst)) from rfl]
  rw [show (fun p : ℚ × ℚ =>
      (p.2 - meanL (l.map Prod.snd)) * (p.1 - meanL (l.map Prod.fst)))
    = fun p : ℚ × ℚ =>
      (p.1 - meanL (l.map Prod.fst)) * (p.2 - meanL (l.map Prod.snd)) from
    funext (fun p => by ring)]

theorem corrEntry_symm (a b : List Cell) : corrEntry b a = corrEntry a b := by
  unfold corrEntry
  rw [colPairs_swap a b, covL_map_swap]
  simp only [List.map_map]
  rw [show (Prod.fst ∘ Prod.swap : ℚ × ℚ → ℚ) = Prod.snd from rfl,
    show (Prod.snd ∘ Prod.swap : ℚ × ℚ → ℚ) = Prod.fst from rfl]
  rw [mul_comm]

/-- C5: the tab-3 correlation matrix is symmetric — for every frame and
every pair of column names `a`, `b`, the entry at `(a, b)` equals the entry
at `(b, a)` (in particular for all pairs in the auto-detected numeric
subset). -/
theorem claim5_corr_matrix_symmetric (f : Frame) (a b : String) :
    corrMatrix f a b = corrMatrix f b a := by
  unfold corrMatrix
  exact (corrEntry_symm _ _).symm

/-! ## Claim C6: the bounded pairplot sample -/

theorem sampleGo_length {α : Type} :
    ∀ (k : Nat) (l : List α) (s : Nat), k ≤ l.length →
      (sampleGo k l s).length = k
  | 0, _, _, _ => rfl
  | k + 1, l, s, h => by
    have hlen : 0 < l.length := lt_of_lt_of_le (Nat.succ_pos k) h
    have hi : s % l.length < l.length := Nat.mod_lt _ hlen
    obtain ⟨x, hx⟩ : ∃ x, l.get? (s % l.length) = some x :=
      ⟨l.get ⟨s % l.length, hi⟩, List.get?_eq_get hi⟩
    have hk : k ≤ (l.eraseIdx (s % l.length)).length := by
      rw [List.length_eraseIdx_of_lt hi]
      exact Nat.le_sub_one_of_lt (lt_of_lt_of_le (Nat.lt_succ_self k) h)
    simp only [sampleGo, hx, List.length_cons]
    rw [sampleGo_length k _ (lcg s) hk]

theorem sampleGo_subset {α : Type} :
    ∀ (k : Nat) (l : List α) (s : Nat) (x : α), x ∈ sampleGo k l s → x ∈ l
  | 0, l, s, x, hx => by cases hx
  | k + 1, l, s, x, hx => by
    unfold sampleGo at hx
    cases hg : l.get? (s % l.length) with
    | none => rw [hg] at hx; cases hx
    | some y =>
      rw [hg] at hx
      rcases List.mem_cons.mp hx with rfl | hx'
      · exact List.get?_mem hg
      · exact List.eraseIdx_subset l (s % l.length)
          (sampleGo_subset k _ (lcg s) x hx')

/-- C6: the tab-2 bounded sample returns at most `cap` rows, every returned
row has no missing value in any retained column, and the function is a
deterministic function of frame, columns, cap and seed, so two calls with
the same arguments agree. -/
theorem claim6_bounded_sample (f : Frame) (cols : List String) (cap seed : Nat) :
    (boundedSample f cols cap seed).length ≤ cap
    ∧ (∀ r ∈ boundedSample f cols cap seed, ∀ c ∈ r, cellIsNa c = false)
    ∧ boundedSample f cols cap seed = boundedSample f cols cap seed := by
  unfold boundedSample
  by_cases h : cap < ((selectRows f cols).filter
      (fun r => r.all (fun c => !cellIsNa c))).length
  · rw [if_pos h]
    refine ⟨?_, ?_, rfl⟩
    · rw [sampleGo_length cap _ _ (le_of_lt h)]
    · intro r hr c hc
      have hr' := sampleGo_subset cap _ _ r hr
      have hall := (List.mem_filter.mp hr').2
      have := (List.all_eq_true.mp hall) c hc
      simpa using this
  · rw [if_neg h]
    refine ⟨le_of_not_lt h, ?_, rfl⟩
    intro r hr c hc
    have hall := (List.mem_filter.mp hr).2
    have := (List.all_eq_true.mp hall) c hc
    simpa using this

/-- Witness for C6 at a concrete frame: with cap 1 and seed 42 the sample
has at most one row, and its one row has no missing cell. -/
theorem claim6_bounded_sample_witness :
    (boundedSample
        [("a", ⟨Dtype.numeric, [Cell.num 1, Cell.na, Cell.num 3, Cell.num 4]⟩),
         ("b", ⟨Dtype.numeric, [Cell.num 5, Cell.num 6, Cell.num 7, Cell.na]⟩)]
        ["a", "b"] 1 42).length ≤ 1
    ∧ (∀ c ∈ [Cell.num (3 : ℚ), Cell.num 7], cellIsNa c = false) := by
  have h := claim6_bounded_sample
    [("a", ⟨Dtype.numeric, [Cell.num 1, Cell.na, Cell.num 3, Cell.num 4]⟩),
     ("b", ⟨Dtype.numeric, [Cell.num 5, Cell.num 6, Cell.num 7, Cell.na]⟩)]
    ["a", "b"] 1 42
  exact ⟨h.1, h.2.1 [Cell.num 3, Cell.num 7] (by decide)⟩

end App
